import Mathlib

/-!
Verification development for the clinic helper application.

The subject is the chat-assistant edge function: an intent classifier
(`detectIntent`), a response generator (`generateResponse`), and the HTTP
boundary handler (`handle`).  The TypeScript source is embedded here as
executable Lean definitions:

* strings are handled at the character-list level; `toLowerCase` is modelled
  by mapping `Char.toLower` over the characters (identical on ASCII input,
  which is all the fixed patterns contain);
* each regular expression of the source is a fixed alternation of literal
  words wrapped in word boundaries, optionally in the two-group form
  `\b(A)\b.*\b(B)\b`; these are modelled by `wordTest` and `seqTest`, which
  quantify over all match positions exactly as `RegExp.test` does (the `?`
  quantifiers are expanded into explicit alternatives);
* the doctor-directory queries are modelled by passing the query outcome as
  an `Option (List Doctor)` (`none` models a failed lookup returning null);
* a thrown internal fault is modelled by an `Option String` argument to the
  boundary handler carrying the message of the caught error.
-/

/-! ### Character and substring utilities -/

/-- Lowercase the characters of a string (model of `message.toLowerCase()`). -/
def lowerChars (s : String) : List Char := s.data.map Char.toLower

/-- Word character in the sense of the regex metacharacter class `\w`,
namely ASCII letters, digits and underscore. -/
def isWordChar (c : Char) : Bool := c.isAlphanum || c == '_'

/-- The list `needle` occurs as a contiguous substring of `hay`
(model of JavaScript `hay.includes(needle)`). -/
def containsSub (hay needle : List Char) : Bool :=
  (List.range (hay.length + 1)).any fun i => needle.isPrefixOf (hay.drop i)

/-- The word `w` occurs in `s` at offset `i` with a regex word boundary on
each side.  Every alternative of the source patterns begins and ends with a
word character, for which a boundary means: the adjacent character is absent
or is not a word character. -/
def boundedMatchAt (s w : List Char) (i : Nat) : Bool :=
  w.isPrefixOf (s.drop i)
  && (i == 0 || !(isWordChar (s.getD (i - 1) ' ')))
  && !(isWordChar (s.getD (i + w.length) ' '))

/-- Model of `RegExp.test` for a pattern of the form `\b(w1|w2|...)\b`:
some alternative occurs somewhere in `s` with word boundaries. -/
def wordTest (words : List String) (s : List Char) : Bool :=
  (List.range (s.length + 1)).any fun i =>
    words.any fun w => boundedMatchAt s w.data i

/-- The characters of `s` strictly between offsets `a` and `b` are all
matchable by the regex metacharacter `.` (which, without the `s` flag,
excludes the four line terminators). -/
def gapOk (s : List Char) (a b : Nat) : Bool :=
  ((s.drop a).take (b - a)).all fun c =>
    !(c == '\n' || c == '\r' || c == '\u2028' || c == '\u2029')

/-- Model of `RegExp.test` for a two-group pattern `\b(A)\b.*\b(B)\b`:
some alternative of `A` matches with boundaries, and at or after its end some
alternative of `B` matches with boundaries, the gap containing no line
terminator. -/
def seqTest (wordsA wordsB : List String) (s : List Char) : Bool :=
  (List.range (s.length + 1)).any fun i =>
    wordsA.any fun wa =>
      boundedMatchAt s wa.data i
      && ((List.range (s.length + 1)).any fun k =>
            decide (i + wa.data.length ≤ k)
            && gapOk s (i + wa.data.length) k
            && wordsB.any fun wb => boundedMatchAt s wb.data k)

/-! ### Pattern data of the source -/

/-- Alternatives of `intentPatterns.greeting`. -/
def greetingWords : List String :=
  ["hi", "hello", "hey", "good morning", "good afternoon", "good evening"]

/-- First-group alternatives of `intentPatterns.book_appointment`. -/
def bookActionWords : List String :=
  ["book", "schedule", "appointment", "visit", "reserve", "slot", "make"]

/-- Second-group alternatives of `intentPatterns.book_appointment`. -/
def bookTargetWords : List String :=
  ["appointment", "doctor", "visit"]

/-- Alternatives of `intentPatterns.doctor_search` (`doctors?` expanded). -/
def doctorSearchWords : List String :=
  ["find", "search", "show", "list", "which", "doctor", "doctors",
   "cardiologist", "orthopedist", "pediatrician", "neurologist", "surgeon",
   "specialist"]

/-- Alternatives of `intentPatterns.faq_hours` (`?` quantifiers expanded). -/
def faqHoursWords : List String :=
  ["visiting hour", "visiting hours", "opening hour", "opening hours",
   "timing", "timings", "open", "close", "when", "hours"]

/-- Alternatives of `intentPatterns.symptom_triage`. -/
def symptomWords : List String :=
  ["chest pain", "sweating", "dizzy", "faint", "fever", "swollen",
   "bleeding", "cough", "blood", "breath", "abdominal pain", "symptom"]

/-- First-group alternatives of `intentPatterns.cancel_appointment`. -/
def cancelActionWords : List String := ["cancel", "remove"]

/-- Second-group alternatives of `intentPatterns.cancel_appointment`. -/
def cancelTargetWords : List String := ["appointment", "booking"]

/-- Alternatives of `intentPatterns.emergency`. -/
def emergencyWords : List String :=
  ["emergency", "urgent", "911", "ambulance", "critical"]

/-- The `emergencySymptoms` phrase list of the source. -/
def emergencySymptoms : List String :=
  ["chest pain", "difficulty breathing", "shortness of breath",
   "coughing blood", "severe bleeding", "severe abdominal pain",
   "unconscious", "stroke", "heart attack"]

/-! ### Intent classifier -/

/-- Some emergency phrase occurs in `l` as a literal substring
(model of `emergencySymptoms.some(symptom => lowerMessage.includes(symptom))`). -/
def emergencyAnySub (l : List Char) : Bool :=
  emergencySymptoms.any fun sym => containsSub l sym.data

/-- The emergency condition of `detectIntent`: phrase substring check or
emergency keyword pattern. -/
def isEmergencyText (l : List Char) : Bool :=
  emergencyAnySub l || wordTest emergencyWords l

/-- Body of `detectIntent` over the lowercased character list. -/
def detectIntentCore (l : List Char) : String :=
  if isEmergencyText l then "emergency"
  else if wordTest greetingWords l then "greeting"
  else if seqTest bookActionWords bookTargetWords l then "book_appointment"
  else if wordTest doctorSearchWords l then "doctor_search"
  else if wordTest faqHoursWords l then "faq_hours"
  else if wordTest symptomWords l then "symptom_triage"
  else if seqTest cancelActionWords cancelTargetWords l then "cancel_appointment"
  else "fallback"

/-- The `detectIntent` function of the source. -/
def detectIntent (message : String) : String :=
  detectIntentCore (lowerChars message)

/-! ### Doctor directory -/

/-- A row of the `doctors` table as consumed by the edge function. -/
structure Doctor where
  name : String
  specialty : String
  days : List String
  start_hour : Nat
  end_hour : Nat
deriving DecidableEq, Repr

/-- Insert a doctor into a list sorted by name (helper for `sortByName`). -/
def insertByName (d : Doctor) : List Doctor → List Doctor
  | [] => [d]
  | e :: es => if d.name ≤ e.name then d :: e :: es else e :: insertByName d es

/-- Sort the directory by doctor name (model of the `.order("name")`
clause of the book-appointment query). -/
def sortByName (l : List Doctor) : List Doctor := l.foldr insertByName []

/-! ### Response templates (literal strings of the source) -/

/-- Fixed reply for the `greeting` intent. -/
def greetingResponse : String :=
  "Hello! I\x27m your HospitalCare assistant. I can help you with:\n\n" ++
  "• Booking appointments with doctors\n" ++
  "• Finding specialists by specialty\n" ++
  "• Visiting hours and hospital information\n" ++
  "• Basic health questions\n\n" ++
  "How can I assist you today?"

/-- Reply when the book-appointment query yields no doctors. -/
def noDoctorsMsg : String :=
  "I can help you book an appointment. However, there are no doctors available at the moment. Please try again later."

/-- Header of the book-appointment doctor listing. -/
def bookHeader : String :=
  "I can help you book an appointment! Here are our available doctors:\n\n"

/-- One numbered directory entry of the book-appointment listing
(shows the position as `idx + 1`, then name, specialty, comma-joined days
and the hour range). -/
def bookLine (idx : Nat) (d : Doctor) : String :=
  toString (idx + 1) ++ ". Dr. " ++ d.name ++ " - " ++ d.specialty ++ "\n" ++
  "   Available: " ++ String.intercalate ", " d.days ++ "\n" ++
  "   Hours: " ++ toString d.start_hour ++ ":00 - " ++ toString d.end_hour ++ ":00\n\n"

/-- Closing prompt of the book-appointment listing. -/
def bookPrompt : String :=
  "Please specify which doctor you\x27d like to see, or let me know your preferred specialty and I\x27ll help you find the right doctor."

/-- The accumulated book-appointment listing (model of the `forEach`
string-building loop). -/
def bookList (doctors : List Doctor) : String :=
  doctors.enum.foldl (fun acc p => acc ++ bookLine p.1 p.2) bookHeader

/-- Reply when the doctor-search query yields no doctors; names the five
known specialties. -/
def notFoundMsg : String :=
  "I couldn\x27t find any doctors matching your criteria. Could you please specify the specialty you\x27re looking for? " ++
  "We have specialists in Cardiology, Orthopedics, Pediatrics, Neurology, and General Medicine."

/-- Header of the doctor-search listing; differs according to whether a
specialty filter was applied. -/
def searchHeader (specialty : String) : String :=
  if specialty = "" then "Here are our available doctors:\n\n"
  else "Here are our " ++ specialty ++ " specialists:\n\n"

/-- One bulleted entry of the doctor-search listing. -/
def searchLine (d : Doctor) : String :=
  "• Dr. " ++ d.name ++ " - " ++ d.specialty ++ "\n" ++
  "  Available: " ++ String.intercalate ", " d.days ++ "\n" ++
  "  Hours: " ++ toString d.start_hour ++ ":00 - " ++ toString d.end_hour ++ ":00\n\n"

/-- The accumulated doctor-search listing. -/
def searchList (doctors : List Doctor) (specialty : String) : String :=
  doctors.foldl (fun acc d => acc ++ searchLine d) (searchHeader specialty)

/-- Closing prompt of the doctor-search listing. -/
def searchPrompt : String :=
  "Would you like to book an appointment with any of these doctors?"

/-- Fixed reply for the `faq_hours` intent. -/
def faqResponse : String :=
  "🏥 **Hospital Visiting Hours**\n\n" ++
  "• General Visiting: 10:00 AM - 8:00 PM\n" ++
  "• ICU Visiting: 4:00 PM - 5:00 PM\n" ++
  "• Emergency: Open 24/7\n\n" ++
  "**Clinic Hours by Department:**\n" ++
  "• Outpatient Clinics: Monday-Saturday, 8:00 AM - 8:00 PM\n" ++
  "• Diagnostic Services: Monday-Saturday, 7:00 AM - 9:00 PM\n" ++
  "• Pharmacy: Open 24/7\n\n" ++
  "Is there anything specific you\x27d like to know?"

/-- Emergency-alert template of the symptom-triage branch. -/
def emergencyAlertMsg : String :=
  "⚠️ **EMERGENCY ALERT** ⚠️\n\n" ++
  "Based on your symptoms, you need immediate medical attention!\n\n" ++
  "**Call Emergency Services (911) immediately** or go to the nearest Emergency Room.\n\n" ++
  "🚨 Emergency Contact: 911\n" ++
  "🏥 Hospital Emergency: +1-555-HOSPITAL\n\n" ++
  "Do not wait - seek help now!"

/-- Triage-deferral reply of the symptom-triage branch. -/
def triageMsg : String :=
  "I understand you\x27re experiencing symptoms. While I can provide general information, " ++
  "I\x27m not qualified to diagnose medical conditions.\n\n" ++
  "**For proper medical advice:**\n" ++
  "• If symptoms are severe or worsening → Call 911 or visit Emergency\n" ++
  "• For non-urgent concerns → I can help you book an appointment with a doctor\n" ++
  "• For general health questions → I\x27m here to help with information\n\n" ++
  "Would you like me to help you book an appointment with a doctor?"

/-- Fixed reply for the `cancel_appointment` intent. -/
def cancelMsg : String :=
  "I can help you cancel your appointment. To proceed, please provide:\n\n" ++
  "• Your appointment reference ID, or\n" ++
  "• The date and doctor name of your appointment\n\n" ++
  "Note: You can also view and manage your appointments through your patient portal."

/-- Fixed reply for the `emergency` intent. -/
def emergencyResponse : String :=
  "🚨 **EMERGENCY RESPONSE** 🚨\n\n" ++
  "If this is a life-threatening emergency:\n\n" ++
  "**CALL 911 IMMEDIATELY**\n\n" ++
  "🏥 Hospital Emergency Room: Open 24/7\n" ++
  "📞 Emergency Hotline: +1-555-HOSPITAL\n" ++
  "📍 Address: 123 Medical Center Drive\n\n" ++
  "For urgent but non-life-threatening issues, our emergency department is always open. " ++
  "Do not wait if you believe your condition is serious!"

/-- Capability-menu reply of the default branch. -/
def fallbackMenu : String :=
  "I\x27m not sure I understand. I can help you with:\n\n" ++
  "• **Book an appointment** - Schedule a visit with our doctors\n" ++
  "• **Find a doctor** - Search by specialty\n" ++
  "• **Visiting hours** - Get hospital timing information\n" ++
  "• **Health questions** - General medical information\n" ++
  "• **Emergency help** - Urgent medical assistance\n\n" ++
  "What would you like help with?"

/-! ### Response generator -/

/-- Specialty filter derived from the message by the doctor-search branch:
first matching keyword of the fixed table wins, empty string when none
matches. -/
def detectSpecialty (message : String) : String :=
  if containsSub (lowerChars message) "cardio".data then "Cardiology"
  else if containsSub (lowerChars message) "ortho".data then "Orthopedics"
  else if containsSub (lowerChars message) "pediat".data then "Pediatrics"
  else if containsSub (lowerChars message) "neuro".data then "Neurology"
  else if containsSub (lowerChars message) "general".data then "General Medicine"
  else ""

/-- The doctor-search query: unfiltered when no specialty was derived,
otherwise restricted to doctors whose specialty contains the filter
case-insensitively (model of the `ilike %specialty%` clause). -/
def searchQuery (specialty : String) (l : List Doctor) : List Doctor :=
  if specialty = "" then l
  else l.filter fun d => containsSub (lowerChars d.specialty) (lowerChars specialty)

/-- The `generateResponse` function of the source.  The directory argument
models the supabase client: `none` is a failed lookup (null `data`),
`some l` a directory returning rows `l`. -/
def generateResponse (intent : String) (message : String)
    (db : Option (List Doctor)) : String :=
  if intent = "greeting" then greetingResponse
  else if intent = "book_appointment" then
    match db with
    | none => noDoctorsMsg
    | some l =>
      if (sortByName l).length = 0 then noDoctorsMsg
      else bookList (sortByName l) ++ bookPrompt
  else if intent = "doctor_search" then
    match db with
    | none => notFoundMsg
    | some l =>
      if (searchQuery (detectSpecialty message) l).length = 0 then notFoundMsg
      else searchList (searchQuery (detectSpecialty message) l)
             (detectSpecialty message) ++ searchPrompt
  else if intent = "faq_hours" then faqResponse
  else if intent = "symptom_triage" then
    if emergencyAnySub (lowerChars message) then emergencyAlertMsg
    else triageMsg
  else if intent = "cancel_appointment" then cancelMsg
  else if intent = "emergency" then emergencyResponse
  else fallbackMenu

/-! ### Boundary handler -/

/-- Outcome of one invocation of the HTTP handler: status code and the
fields of the JSON payload (absent fields are `none`). -/
structure Resp where
  status : Nat
  error : Option String
  intent : Option String
  response : Option String
deriving DecidableEq, Repr

/-- JavaScript falsiness of the `message` field: the field is missing or
holds the empty string. -/
def isFalsyMessage : Option String → Bool
  | none => true
  | some s => s.isEmpty

/-- Generic apology text of the catch branch. -/
def apologyMsg : String :=
  "I\x27m sorry, I encountered an error processing your request. Please try again."

/-- Default error message used when the caught error carries none. -/
def defaultErrorText : String := "An unexpected error occurred"

/-- The `serve` request handler of the source.  `msg` is the `message`
field of the request body, `db` the doctor directory, and `fault` models a
thrown internal fault (carrying the message of the caught error, empty when
the error object has none); `none` means the invocation runs to
completion. -/
def handle (msg : Option String) (db : Option (List Doctor))
    (fault : Option String) : Resp :=
  match fault with
  | some e =>
    ⟨500, some (if e.isEmpty then defaultErrorText else e), some "error",
      some apologyMsg⟩
  | none =>
    if isFalsyMessage msg then ⟨400, some "Message is required", none, none⟩
    else
      match msg with
      | none => ⟨400, some "Message is required", none, none⟩
      | some m =>
        ⟨200, none, some (detectIntent m),
          some (generateResponse (detectIntent m) m db)⟩

/-! ### Specification-side definitions (for refinement claims) -/

/-- The closed set of labels the classifier may produce. -/
def intentLabels : List String :=
  ["greeting", "book_appointment", "doctor_search", "faq_hours",
   "symptom_triage", "cancel_appointment", "emergency", "fallback"]

/-- The seven labels carrying an explicit branch in `generateResponse`. -/
def handledLabels : List String :=
  ["greeting", "book_appointment", "doctor_search", "faq_hours",
   "symptom_triage", "cancel_appointment", "emergency"]

/-- The ordered label/pattern list the specification describes for the
post-override phase of classification. -/
def orderedChecks : List (String × (List Char → Bool)) :=
  [("greeting", wordTest greetingWords),
   ("book_appointment", seqTest bookActionWords bookTargetWords),
   ("doctor_search", wordTest doctorSearchWords),
   ("faq_hours", wordTest faqHoursWords),
   ("symptom_triage", wordTest symptomWords),
   ("cancel_appointment", seqTest cancelActionWords cancelTargetWords)]

/-- Classifier as worded by the specification: emergency override, then the
label of the first matching pattern in the fixed order, else fallback. -/
def detectIntentSpecCore (l : List Char) : String :=
  if isEmergencyText l then "emergency"
  else
    match orderedChecks.find? fun p => p.2 l with
    | some p => p.1
    | none => "fallback"

/-- Specification-worded classifier over the raw message. -/
def detectIntentSpec (m : String) : String := detectIntentSpecCore (lowerChars m)

/-- The keyword-to-specialty table of the doctor-search branch, in source
order. -/
def specialtyTable : List (String × String) :=
  [("cardio", "Cardiology"), ("ortho", "Orthopedics"),
   ("pediat", "Pediatrics"), ("neuro", "Neurology"),
   ("general", "General Medicine")]

/-- Specialty filter as worded by the specification: the value of the first
table entry whose keyword occurs in the lowercased message, else empty. -/
def detectSpecialtySpec (m : String) : String :=
  match specialtyTable.find? fun p => containsSub (lowerChars m) p.1.data with
  | some p => p.2
  | none => ""

/-! ### Auxiliary definitions for stating response-shape claims -/

/-- Concatenation of a list of strings, in order. -/
def concatAll : List String → String
  | [] => ""
  | s :: t => s ++ concatAll t

/-- A sample directory row used to instantiate universally quantified
claims. -/
def sampleDoctor : Doctor :=
  ⟨"Sarah Johnson", "Cardiology", ["Monday", "Tuesday"], 9, 17⟩

/-! ### Helper lemmas -/

/-- Folding string append over numbered entries equals the initial string
followed by the concatenation of the rendered entries. -/
theorem foldl_bookLine_eq (l : List (Nat × Doctor)) (init : String) :
    l.foldl (fun acc p => acc ++ bookLine p.1 p.2) init =
      init ++ concatAll (l.map fun p => bookLine p.1 p.2) := by
  induction l generalizing init with
  | nil => simp [concatAll]
  | cons p t ih => simp [concatAll, ih, String.append_assoc]

/-- Inserting a doctor whose name is below every name of the list leaves it
at the head. -/
theorem insertByName_of_le (d : Doctor) (t : List Doctor)
    (hd : ∀ e ∈ t, d.name ≤ e.name) : insertByName d t = d :: t := by
  cases t with
  | nil => rfl
  | cons e es =>
    simp only [insertByName]
    rw [if_pos (hd e (List.mem_cons_self e es))]

/-- Insertion sort by name is the identity on a directory already sorted by
name. -/
theorem sortByName_of_pairwise (l : List Doctor)
    (h : l.Pairwise fun a b => a.name ≤ b.name) : sortByName l = l := by
  induction l with
  | nil => rfl
  | cons d t ih =>
    rw [List.pairwise_cons] at h
    show insertByName d (t.foldr insertByName []) = d :: t
    have ht : t.foldr insertByName [] = t := ih h.2
    rw [ht]
    exact insertByName_of_le d t h.1

set_option maxRecDepth 400000

/-! ### Claim theorems -/

/-- Claim C1 (emergency priority invariant): for every message whose
lowercased text contains an emergency phrase as a substring or matches the
emergency keyword pattern as whole words, `detectIntent` returns
"emergency", regardless of any other language in the message; in
particular a message with both "chest pain" and booking language
classifies as "emergency", never "book_appointment". -/
theorem emergencyPriorityInvariant :
    (∀ m : String,
      emergencyAnySub (lowerChars m) = true ∨
        wordTest emergencyWords (lowerChars m) = true →
      detectIntent m = "emergency") ∧
    detectIntent "I have chest pain, can I book an appointment" = "emergency" ∧
    detectIntent "I have chest pain, can I book an appointment" ≠ "book_appointment" := by
  refine ⟨?_, by decide, by decide⟩
  intro m h
  have he : isEmergencyText (lowerChars m) = true := by
    cases h with
    | inl h => simp [isEmergencyText, h]
    | inr h => simp [isEmergencyText, h]
  rw [detectIntent]
  unfold detectIntentCore
  rw [if_pos he]

/-- Witness for C1: a concrete emergency-keyword message classifies as
emergency. -/
theorem emergencyPriorityInvariant_witness :
    detectIntent "urgent" = "emergency" :=
  emergencyPriorityInvariant.1 "urgent" (Or.inr (by decide))

/-- Claim C2 (classifier contract and order): every message classifies to
exactly one label of the closed eight-label set, and `detectIntent` equals
the specification-worded classifier: emergency override first, then the
first matching pattern of the fixed order greeting, book_appointment,
doctor_search, faq_hours, symptom_triage, cancel_appointment, else
fallback. -/
theorem classifierContractAndOrder :
    (∀ m : String, detectIntent m ∈ intentLabels) ∧
    (∀ m : String, detectIntent m = detectIntentSpec m) := by
  constructor
  · intro m
    rw [detectIntent]
    unfold detectIntentCore
    repeat' split
    all_goals decide
  · intro m
    rw [detectIntent, detectIntentSpec]
    generalize lowerChars m = l
    unfold detectIntentCore detectIntentSpecCore orderedChecks
    cases h0 : isEmergencyText l <;>
      cases h1 : wordTest greetingWords l <;>
      cases h2 : seqTest bookActionWords bookTargetWords l <;>
      cases h3 : wordTest doctorSearchWords l <;>
      cases h4 : wordTest faqHoursWords l <;>
      cases h5 : wordTest symptomWords l <;>
      cases h6 : seqTest cancelActionWords cancelTargetWords l <;>
      simp [List.find?, h0, h1, h2, h3, h4, h5, h6]

/-- Claim C3 (compound book_appointment pattern): a message classifying as
book_appointment necessarily contains an action word with word boundaries
and, at or after its end, a target word with word boundaries; the single
word "appointment" is not book_appointment and falls through to
fallback. -/
theorem bookAppointmentCompound :
    (∀ m : String, detectIntent m = "book_appointment" →
      ∃ i wa k wb, wa ∈ bookActionWords ∧ wb ∈ bookTargetWords ∧
        boundedMatchAt (lowerChars m) wa.data i = true ∧
        i + wa.data.length ≤ k ∧
        gapOk (lowerChars m) (i + wa.data.length) k = true ∧
        boundedMatchAt (lowerChars m) wb.data k = true) ∧
    detectIntent "appointment" ≠ "book_appointment" ∧
    detectIntent "appointment" = "fallback" := by
  refine ⟨?_, by decide, by decide⟩
  intro m h
  rw [detectIntent] at h
  unfold detectIntentCore at h
  have hb : seqTest bookActionWords bookTargetWords (lowerChars m) = true := by
    by_cases h0 : isEmergencyText (lowerChars m) = true
    · rw [if_pos h0] at h; exact absurd h (by decide)
    rw [if_neg h0] at h
    by_cases h1 : wordTest greetingWords (lowerChars m) = true
    · rw [if_pos h1] at h; exact absurd h (by decide)
    rw [if_neg h1] at h
    by_cases h2 : seqTest bookActionWords bookTargetWords (lowerChars m) = true
    · exact h2
    exfalso
    rw [if_neg h2] at h
    by_cases h3 : wordTest doctorSearchWords (lowerChars m) = true
    · rw [if_pos h3] at h; exact absurd h (by decide)
    rw [if_neg h3] at h
    by_cases h4 : wordTest faqHoursWords (lowerChars m) = true
    · rw [if_pos h4] at h; exact absurd h (by decide)
    rw [if_neg h4] at h
    by_cases h5 : wordTest symptomWords (lowerChars m) = true
    · rw [if_pos h5] at h; exact absurd h (by decide)
    rw [if_neg h5] at h
    by_cases h6 : seqTest cancelActionWords cancelTargetWords (lowerChars m) = true
    · rw [if_pos h6] at h; exact absurd h (by decide)
    rw [if_neg h6] at h
    exact absurd h (by decide)
  simp only [seqTest, List.any_eq_true, List.mem_range, Bool.and_eq_true,
    decide_eq_true_eq] at hb
  obtain ⟨i, hi, wa, hwa, hba, k, hk, ⟨hle, hgap⟩, wb, hwb, hbb⟩ := hb
  exact ⟨i, wa, k, wb, hwa, hwb, hba, hle, hgap, hbb⟩

/-- Witness for C3: the action word and later target word extracted from a
concrete booking message. -/
theorem bookAppointmentCompound_witness :
    ∃ i wa k wb, wa ∈ bookActionWords ∧ wb ∈ bookTargetWords ∧
      boundedMatchAt (lowerChars "book a doctor") wa.data i = true ∧
      i + wa.data.length ≤ k ∧
      gapOk (lowerChars "book a doctor") (i + wa.data.length) k = true ∧
      boundedMatchAt (lowerChars "book a doctor") wb.data k = true :=
  bookAppointmentCompound.1 "book a doctor" (by decide)

/-- Claim C6 (doctor_search specialty filter): the specialty filter equals
the first match of the fixed keyword table in order cardio, ortho, pediat,
neuro, general; "find me a cardiologist" derives Cardiology and
"show me doctors" derives no filter; the query is the unfiltered directory
when no keyword matched and otherwise keeps the doctors whose specialty
contains the filter case-insensitively; an empty result yields the
could-not-find message, whose text names the five known specialties. -/
theorem doctorSearchSpecialtyFilter :
    (∀ m : String, detectSpecialty m = detectSpecialtySpec m) ∧
    detectSpecialty "find me a cardiologist" = "Cardiology" ∧
    detectSpecialty "show me doctors" = "" ∧
    (∀ l : List Doctor, searchQuery "" l = l) ∧
    (∀ (s : String) (l : List Doctor), s ≠ "" →
      searchQuery s l =
        l.filter fun d => containsSub (lowerChars d.specialty) (lowerChars s)) ∧
    (∀ (m : String) (l : List Doctor),
      searchQuery (detectSpecialty m) l = [] →
      generateResponse "doctor_search" m (some l) = notFoundMsg) ∧
    (["Cardiology", "Orthopedics", "Pediatrics", "Neurology",
      "General Medicine"].all fun s => containsSub notFoundMsg.data s.data) =
      true := by
  refine ⟨?_, by decide, by decide, ?_, ?_, ?_, by decide⟩
  · intro m
    unfold detectSpecialty detectSpecialtySpec specialtyTable
    cases c1 : containsSub (lowerChars m) "cardio".data <;>
      cases c2 : containsSub (lowerChars m) "ortho".data <;>
      cases c3 : containsSub (lowerChars m) "pediat".data <;>
      cases c4 : containsSub (lowerChars m) "neuro".data <;>
      cases c5 : containsSub (lowerChars m) "general".data <;>
      simp [List.find?, c1, c2, c3, c4, c5]
  · intro l
    rw [searchQuery, if_pos rfl]
  · intro s l h
    rw [searchQuery, if_neg h]
  · intro m l h
    have hbranch : generateResponse "doctor_search" m (some l) =
        if (searchQuery (detectSpecialty m) l).length = 0 then notFoundMsg
        else searchList (searchQuery (detectSpecialty m) l)
               (detectSpecialty m) ++ searchPrompt := rfl
    rw [hbranch, if_pos (by rw [h]; rfl)]

/-- Witness for C6: the filtered query on a concrete specialty and the
could-not-find reply on an empty directory. -/
theorem doctorSearchSpecialtyFilter_witness :
    searchQuery "Cardiology" [] =
      List.filter
        (fun d => containsSub (lowerChars d.specialty) (lowerChars "Cardiology"))
        [] ∧
    generateResponse "doctor_search" "find me a cardiologist" (some []) =
      notFoundMsg :=
  ⟨doctorSearchSpecialtyFilter.2.2.2.2.1 "Cardiology" [] (by decide),
   doctorSearchSpecialtyFilter.2.2.2.2.2.1 "find me a cardiologist" [] rfl⟩

/-- Claim C7 (end-to-end classification examples): the five documented
example messages classify to book_appointment, emergency (and not
book_appointment), greeting, faq_hours and fallback respectively. -/
theorem endToEndClassificationExamples :
    detectIntent "I want to book an appointment" = "book_appointment" ∧
    detectIntent "I have severe chest pain and need an appointment" =
      "emergency" ∧
    detectIntent "I have severe chest pain and need an appointment" ≠
      "book_appointment" ∧
    detectIntent "hello" = "greeting" ∧
    detectIntent "when do you open" = "faq_hours" ∧
    detectIntent "xyz nonsense" = "fallback" := by
  decide

/-- Claim C8 (boundary result contract): an accepted request that runs to
completion returns status 200 with the classified intent label and the
generated response; a thrown internal fault is caught and converted to
status 500 carrying the caught error message (or the default text), the
stable marker intent "error" and the fixed apology text; and "error" is
never a label produced by classification. -/
theorem boundaryResultContract :
    (∀ (m : String) (db : Option (List Doctor)), m.isEmpty = false →
      handle (some m) db none =
        ⟨200, none, some (detectIntent m),
          some (generateResponse (detectIntent m) m db)⟩) ∧
    (∀ (msg : Option String) (db : Option (List Doctor)) (e : String),
      handle msg db (some e) =
        ⟨500, some (if e.isEmpty then defaultErrorText else e), some "error",
          some apologyMsg⟩) ∧
    (∀ m : String, detectIntent m ≠ "error") := by
  refine ⟨?_, ?_, ?_⟩
  · intro m db h
    simp [handle, isFalsyMessage, h]
  · intro msg db e
    rfl
  · intro m
    rw [detectIntent]
    unfold detectIntentCore
    repeat' split
    all_goals decide

/-- Witness for C8: the success response for a concrete greeting
request. -/
theorem boundaryResultContract_witness :
    handle (some "hello") none none =
      ⟨200, none, some (detectIntent "hello"),
        some (generateResponse (detectIntent "hello") "hello" none)⟩ :=
  boundaryResultContract.1 "hello" none (by decide)

/-- Claim C9 (dead redundant emergency re-check): for every message that
classifies as symptom_triage, the emergency-phrase substring re-check
inside the symptom_triage branch of the response generator is false, so
the emergency-alert template is unreachable there and the branch always
returns the triage-deferral message. -/
theorem symptomTriageRecheckDead :
    ∀ (m : String) (db : Option (List Doctor)),
      detectIntent m = "symptom_triage" →
      emergencyAnySub (lowerChars m) = false ∧
      generateResponse "symptom_triage" m db = triageMsg := by
  intro m db h
  have he : isEmergencyText (lowerChars m) = false := by
    by_contra hc
    rw [Bool.not_eq_false] at hc
    rw [detectIntent] at h
    unfold detectIntentCore at h
    rw [if_pos hc] at h
    exact absurd h (by decide)
  have ha : emergencyAnySub (lowerChars m) = false := by
    have h2 := he
    simp [isEmergencyText, Bool.or_eq_false_iff] at h2
    exact h2.1
  refine ⟨ha, ?_⟩
  have hbranch : generateResponse "symptom_triage" m db =
      if emergencyAnySub (lowerChars m) then emergencyAlertMsg
      else triageMsg := rfl
  rw [hbranch, ha]
  simp

/-- Witness for C9: a concrete symptom message takes the triage-deferral
branch. -/
theorem symptomTriageRecheckDead_witness :
    emergencyAnySub (lowerChars "I have a fever") = false ∧
    generateResponse "symptom_triage" "I have a fever" none = triageMsg :=
  symptomTriageRecheckDead "I have a fever" none (by decide)

/-- Claim C10 (totality of response generation): for every intent string
outside the seven explicitly handled labels, including "fallback" and
"error", the generator returns the fixed capability-menu text, which
begins with the words announcing it is not sure it understands; and for
every label other than book_appointment and doctor_search the result is
independent of the doctor directory (no directory read). -/
theorem generateResponseTotality :
    (∀ intent : String, intent ∉ handledLabels →
      ∀ (m : String) (db : Option (List Doctor)),
        generateResponse intent m db = fallbackMenu) ∧
    "I\x27m not sure I understand".data.isPrefixOf fallbackMenu.data = true ∧
    (∀ intent : String, intent ∉ ["book_appointment", "doctor_search"] →
      ∀ (m : String) (db db2 : Option (List Doctor)),
        generateResponse intent m db = generateResponse intent m db2) := by
  refine ⟨?_, by decide, ?_⟩
  · intro intent h m db
    simp only [handledLabels, List.mem_cons, List.not_mem_nil, or_false,
      not_or] at h
    obtain ⟨h1, h2, h3, h4, h5, h6, h7⟩ := h
    unfold generateResponse
    rw [if_neg h1, if_neg h2, if_neg h3, if_neg h4,
      if_neg h5, if_neg h6, if_neg h7]
  · intro intent h m db db2
    simp only [List.mem_cons, List.not_mem_nil, or_false, not_or] at h
    obtain ⟨h2, h3⟩ := h
    unfold generateResponse
    simp only [if_neg h2, if_neg h3]

/-- Witness for C10: the default branch at the unhandled label "error" and
directory-independence at "fallback". -/
theorem generateResponseTotality_witness :
    generateResponse "error" "hello" none = fallbackMenu ∧
    generateResponse "fallback" "hi" (some []) =
      generateResponse "fallback" "hi" none :=
  ⟨generateResponseTotality.1 "error" (by decide) "hello" none,
   generateResponseTotality.2.2 "fallback" (by decide) "hi" (some []) none⟩

/-- Counterexample to claim C4: a whitespace-only message is NOT rejected
by the boundary handler; the falsiness check accepts the non-empty string
of one blank, which reaches classification (yielding intent fallback) and
produces a success response. -/
theorem whitespaceOnlyMessageAccepted :
    handle (some " ") none none =
      ⟨200, none, some "fallback", some fallbackMenu⟩ ∧
    (handle (some " ") none none).status ≠ 400 ∧
    (handle (some " ") none none).error ≠ some "Message is required" := by
  decide

/-- Claim C4 amended (boundary input validation): for every request whose
message field is missing or holds the empty string, the handler rejects it
with status 400 and payload error "Message is required", and neither an
intent nor a response text is produced; a whitespace-only message, however,
is not rejected and is classified normally. -/
theorem missingOrEmptyMessageRejected :
    (∀ db : Option (List Doctor),
      handle none db none = ⟨400, some "Message is required", none, none⟩) ∧
    (∀ db : Option (List Doctor),
      handle (some "") db none = ⟨400, some "Message is required", none, none⟩) ∧
    handle (some " ") none none =
      ⟨200, none, some "fallback", some fallbackMenu⟩ := by
  refine ⟨fun db => rfl, fun db => rfl, by decide⟩

/-- Claim C5 (book_appointment response shape): when the directory query
yields no records (null or the empty list) the response is the fixed
unavailable-doctors message; otherwise, for a directory of N doctors
ordered by name, the response is the header followed by the N rendered
entries in directory order followed by the prompt, there are exactly N
entries, and the entry indices run 0..N-1 (each entry printing its index
plus one, hence numbered 1 through N). -/
theorem bookAppointmentResponseShape (m : String) (docs : List Doctor)
    (hsorted : docs.Pairwise fun a b => a.name ≤ b.name) :
    generateResponse "book_appointment" m none = noDoctorsMsg ∧
    generateResponse "book_appointment" m (some []) = noDoctorsMsg ∧
    (docs ≠ [] →
      generateResponse "book_appointment" m (some docs) =
        bookHeader ++ concatAll (docs.enum.map fun p => bookLine p.1 p.2) ++
          bookPrompt ∧
      (docs.enum.map fun p => bookLine p.1 p.2).length = docs.length ∧
      docs.enum.map Prod.fst = List.range docs.length) := by
  refine ⟨rfl, rfl, fun hne => ?_⟩
  have hs : sortByName docs = docs := sortByName_of_pairwise docs hsorted
  have hlen : ¬((sortByName docs).length = 0) := by
    rw [hs]
    simpa [List.length_eq_zero] using hne
  have hbranch : generateResponse "book_appointment" m (some docs) =
      if (sortByName docs).length = 0 then noDoctorsMsg
      else bookList (sortByName docs) ++ bookPrompt := rfl
  refine ⟨?_, by simp, by simp⟩
  rw [hbranch, if_neg hlen, hs, bookList, foldl_bookLine_eq]

/-- Witness for C5: the listing for a one-doctor directory. -/
theorem bookAppointmentResponseShape_witness :
    generateResponse "book_appointment" "" (some [sampleDoctor]) =
      bookHeader ++
        concatAll ([sampleDoctor].enum.map fun p => bookLine p.1 p.2) ++
        bookPrompt ∧
    ([sampleDoctor].enum.map fun p => bookLine p.1 p.2).length =
      [sampleDoctor].length :=
  ⟨((bookAppointmentResponseShape "" [sampleDoctor] (by simp)).2.2
      (by simp)).1,
   (((bookAppointmentResponseShape "" [sampleDoctor] (by simp)).2.2
      (by simp)).2).1⟩
